import Mathlib

/-!
# Verification of the wavrun playback engine and advance policy

This file gives a shallow embedding, in Lean 4, of the playback-policy code of
the wavrun repository, and proves (or refutes) the specification claims about
it.  Three program variants carry the policy:

* `src/main.py` — the terminal loop `play_music` with its play order, queue and
  missing-file skipping (embedded below as `MainState`, `handleSongEnd`,
  `selectLoop`, `rebuild_play_order_choices`);
* `src/core/cli_playback.py` — the TUI controller (embedded as `CliState` with
  `on_input_changed`, `action_clear_search`, `action_next`, `action_prev_full`,
  `advance_to_next`, `play_index_state`, and the end-of-track flag functions);
* `src/wavrun_vlc_dark.py` — the Tk GUI (end-of-track advance embedded as
  `dark_progress_end`).

`src/core/config.py` is embedded as `save_config` over association lists.

Randomness (`random.randrange`, `random.shuffle`) is modelled by passing the
drawn index, respectively the permutation, as an explicit argument; file
existence (`os.path.exists`) is a boolean predicate argument; the single
unbounded loop (`play_music`'s track-selection loop) is given explicit fuel.
-/

namespace Wavrun

/-- Repeat mode, the string field `repeat_mode` in all three variants:
`"off" | "one" | "all"`. -/
inductive RepeatMode where
  | off
  | one
  | all
deriving DecidableEq, Repr

/-- A playlist entry as produced by `core/playlist.py` (`{path, title, artist}`;
the `rating` field plays no role in any claim). The `path` is the track's
identity key. -/
structure Song where
  path : String
  title : String
  artist : String
deriving DecidableEq, Repr

/-- Default song used for out-of-range `List.getD` reads; the embedded code
only reads in range. -/
def defaultSong : Song := { path := "", title := "", artist := "" }

/-- `leadMatch needle hay`: `needle` matches the leading characters of `hay`. -/
def leadMatch : List Char → List Char → Bool
  | [], _ => true
  | _ :: _, [] => false
  | c :: cs, d :: ds => c = d && leadMatch cs ds

/-- `occursIn needle hay`: `needle` occurs contiguously somewhere in `hay`. -/
def occursIn (needle : List Char) : List Char → Bool
  | [] => leadMatch needle []
  | d :: ds => leadMatch needle (d :: ds) || occursIn needle ds

/-- Python's `needle in hay` on strings: substring containment. -/
def strContains (hay needle : String) : Bool :=
  occursIn needle.data hay.data

/-- Python's `str.lower`, character by character. -/
def strLower (s : String) : String :=
  ⟨s.data.map Char.toLower⟩

/-- `os.path.basename` for slash-separated paths. -/
def basename (p : String) : String :=
  (p.splitOn "/").getLastD p

/-! ## Embedding of `src/main.py` (`play_music`) -/

/-- The mutable state of `play_music` (`src/main.py` lines 172-211) that the
advance logic reads and writes: the catalog `song_files`, the play order (a
list of catalog indices), the position `play_index` inside it, the queue of
catalog indices, the repeat mode, the shuffle flag and the last selected
catalog index `current_index`. -/
structure MainState where
  songFiles : List String
  playOrder : List Nat
  playIndex : Nat
  queueList : List Nat
  repeatMode : RepeatMode
  shuffleState : Bool
  currentIndex : Nat
deriving DecidableEq, Repr

/-- Result of the end-of-track branch of `play_music`. -/
inductive EndOutcome where
  /-- `repeat_mode == "one"`: the same file is reloaded and played again;
  no other state changes (`src/main.py` lines 339-348). -/
  | replaySame (s : MainState)
  /-- the loop breaks back to the track-selection loop with the updated
  state (`src/main.py` lines 349-359). -/
  | advance (s : MainState)
deriving DecidableEq, Repr

/-- The end-of-track handling of `play_music` (`src/main.py` lines 337-359):
if `repeat_mode == "one"` the current file is replayed; otherwise, if the
queue is non-empty its head is popped into `current_index` and `play_index`
is moved to its position in the play order (or simply incremented when the
popped index is not in the play order); with an empty queue `play_index` is
incremented. -/
def handleSongEnd (s : MainState) : EndOutcome :=
  if s.repeatMode = .one then
    .replaySame s
  else
    match s.queueList with
    | [] => .advance { s with playIndex := s.playIndex + 1 }
    | q :: rest =>
      if s.playOrder.contains q then
        .advance { s with queueList := rest, currentIndex := q,
                          playIndex := s.playOrder.indexOf q }
      else
        .advance { s with queueList := rest, currentIndex := q,
                          playIndex := s.playIndex + 1 }

/-- Result of the outer track-selection loop of `play_music`. -/
inductive SelectResult where
  /-- a track was selected and its file exists: it is loaded and played;
  `s.currentIndex` is the selected catalog index. -/
  | play (s : MainState)
  /-- `"End of playlist"`: the function returns `("stop", current_index)`. -/
  | stop (currentIndex : Nat)
deriving DecidableEq, Repr

/-- The head of the outer loop of `play_music` (`src/main.py` lines 229-247),
which selects the next track and skips missing files: when `play_index` runs
past the play order, `repeat_mode == "all"` wraps it to `0` (reshuffling the
play order via `resh` when shuffle is on, modelling `random.shuffle`), any
other mode stops; otherwise the track at `play_order[play_index]` becomes
`current_index` and is played if its file exists (`ex`), else the loop skips
it by incrementing `play_index`.  `fuel` bounds the number of iterations;
`none` means the loop did not finish within `fuel` iterations. -/
def selectLoop (ex : String → Bool) (resh : List Nat → List Nat) :
    Nat → MainState → Option SelectResult
  | 0, _ => none
  | fuel + 1, s =>
    if s.playOrder.length ≤ s.playIndex then
      if s.repeatMode = .all then
        selectLoop ex resh fuel
          { s with playIndex := 0,
                   playOrder := if s.shuffleState then resh s.playOrder
                                else s.playOrder }
      else
        some (.stop s.currentIndex)
    else
      if ex (s.songFiles.getD (s.playOrder.getD s.playIndex 0) "") then
        some (.play { s with currentIndex := s.playOrder.getD s.playIndex 0 })
      else
        selectLoop ex resh fuel
          { s with currentIndex := s.playOrder.getD s.playIndex 0,
                   playIndex := s.playIndex + 1 }

/-- The filtered index list built by `rebuild_play_order` in `play_music`
(`src/main.py` line 184): indices of the songs whose (lowercased) name
contains the (lowercased) filter term. -/
def filter_indices (songFiles : List String) (term : String) : List Nat :=
  (List.range songFiles.length).filter
    (fun i => strContains (strLower (songFiles.getD i "")) (strLower term))

/-- All ways of inserting `a` into a list (helper for `permsOf`). -/
def insertsOf {α : Type} (a : α) : List α → List (List α)
  | [] => [[a]]
  | b :: bs => (a :: b :: bs) :: (insertsOf a bs).map (fun l => b :: l)

/-- All permutations of a list: the universe of outcomes of
`random.shuffle`. -/
def permsOf {α : Type} : List α → List (List α)
  | [] => [[]]
  | a :: as => (permsOf as).flatMap (insertsOf a)

/-- The set of play orders `rebuild_play_order` (`src/main.py` lines 182-194)
can produce, as a list: with a filter term the indices are restricted to the
filtered subset, and shuffle mode (`random.shuffle`) can produce any
permutation of that list. -/
def rebuild_play_order_choices (songFiles : List String) (filterTerm : String)
    (shuffleState : Bool) : List (List Nat) :=
  if filterTerm = "" then
    if shuffleState then permsOf (List.range songFiles.length)
    else [List.range songFiles.length]
  else
    if shuffleState then permsOf (filter_indices songFiles filterTerm)
    else [filter_indices songFiles filterTerm]

/-! ## Embedding of `src/core/cli_playback.py` (the TUI controller) -/

/-- The fields of the `wavrun` app (`src/core/cli_playback.py` lines 52-72)
that the playback policy reads and writes: the full catalog, the current
(possibly filtered) view `playlist`, the identity of the playing track
(`current_song_path`), the transport booleans, the mode flags, the
end-of-track flag (`song_end_flag`, a `threading.Event`) and the text of the
search input. -/
structure CliState where
  fullPlaylist : List Song
  playlist : List Song
  currentSongPath : Option String
  playing : Bool
  paused : Bool
  shuffle : Bool
  repeatMode : RepeatMode
  songEndFlag : Bool
  searchValue : String
deriving DecidableEq, Repr

/-- Transport status as the spec names it, derived from the `playing` /
`paused` booleans the code keeps. -/
inductive Transport where
  | playing
  | paused
  | stopped
deriving DecidableEq, Repr

/-- The transport status encoded by the `playing`/`paused` booleans of the
TUI state. -/
def transportStatus (s : CliState) : Transport :=
  if s.playing then .playing
  else if s.paused then .paused
  else .stopped

/-- `_get_current_index` (`src/core/cli_playback.py` lines 76-84): the index
of the playing track in the current (possibly filtered) `playlist`; the
code's `-1` becomes `none`. -/
def getCurrentIndex (s : CliState) : Option Nat :=
  match s.currentSongPath with
  | none => none
  | some p => s.playlist.findIdx? (fun song => song.path == p)

/-- `_find_song_in_full_playlist` (`src/core/cli_playback.py` lines 86-91):
the index of a path in the full playlist; `-1` becomes `none`. -/
def findSongInFullPlaylist (s : CliState) (p : String) : Option Nat :=
  s.fullPlaylist.findIdx? (fun song => song.path == p)

/-- The searchable text of a song as built by `on_input_changed`
(`src/core/cli_playback.py` lines 595-600): lowercased title, artist and
path basename joined by spaces. -/
def songSearchText (song : Song) : String :=
  strLower song.title ++ " " ++ strLower song.artist ++ " "
    ++ strLower (basename song.path)

/-- The filter predicate of `on_input_changed`: the term occurs in the
song's searchable text. -/
def songMatches (term : String) (song : Song) : Bool :=
  strContains (songSearchText song) term

/-- `on_input_changed` (`src/core/cli_playback.py` lines 584-602): the typed
search value is stripped and lowercased; an empty term restores the full
playlist as the view, otherwise the view becomes the matching subsequence of
the full playlist.  Nothing else in the state is touched (the remaining
statements update widgets only). -/
def on_input_changed (value : String) (s : CliState) : CliState :=
  if strLower value.trim = "" then
    { s with searchValue := value, playlist := s.fullPlaylist }
  else
    { s with searchValue := value,
             playlist := s.fullPlaylist.filter
               (songMatches (strLower value.trim)) }

/-- `action_clear_search` (`src/core/cli_playback.py` lines 331-337): empties
the search input and restores the full playlist as the view; the other
statements only move list-view focus. -/
def action_clear_search (s : CliState) : CliState :=
  { s with searchValue := "", playlist := s.fullPlaylist }

/-- The state effect of `_play_index` (`src/core/cli_playback.py` lines
191-244) when the file at `path` exists: `current_song_path` is set, the
player is stopped, the file loaded, the end callback registered and playback
started, and `playing`/`paused` are set.  Note that `song_end_flag` is never
cleared anywhere in this function. -/
def play_index_state (path : String) (s : CliState) : CliState :=
  { s with currentSongPath := some path, playing := true, paused := false }

/-- A track selection made by `action_next` or `_advance_to_next`: the chosen
index together with the path of the chosen song (whose `_play_index` call
then plays it). -/
inductive NextSel where
  | select (idx : Nat) (path : String)
  /-- `player.stop()` was called and `playing` set to `False`. -/
  | stopped
  /-- an early `return` without selecting anything. -/
  | noop
deriving DecidableEq, Repr

/-- The selection logic of `action_next` (`src/core/cli_playback.py` lines
274-295), which navigates in the current (possibly filtered) `playlist`:
with shuffle on, the random draw `r` (`random.randrange(len(playlist))`) is
the chosen view index; otherwise the successor of the current view index (or
`0` when the current track is not in the view) is chosen, wrapping to `0`
under repeat-all and stopping otherwise when past the end. -/
def action_next (r : Nat) (s : CliState) : NextSel :=
  if s.playlist.isEmpty then .noop
  else
    if s.shuffle then
      .select r ((s.playlist.getD r defaultSong).path)
    else
      match getCurrentIndex s with
      | some c =>
        if s.playlist.length ≤ c + 1 then
          if s.repeatMode = .all then
            .select 0 ((s.playlist.getD 0 defaultSong).path)
          else
            .stopped
        else
          .select (c + 1) ((s.playlist.getD (c + 1) defaultSong).path)
      | none =>
        .select 0 ((s.playlist.getD 0 defaultSong).path)

/-- The result of `action_prev`. -/
inductive PrevSel where
  /-- `player.set_time(0)`: the current track is restarted from 0. -/
  | seekZero
  | select (idx : Nat) (path : String)
  | noop
deriving DecidableEq, Repr

/-- `action_prev` (`src/core/cli_playback.py` lines 297-311) together with
its state effect.  `pos` is the player position in milliseconds
(`player.get_pos()`, a natural number: `core/player.py` clamps at 0).  When
`pos` is truthy and exceeds 3000 the track is merely restarted and the state
is left untouched; otherwise the predecessor in the view is selected (from
view index 0: the last view entry under repeat-all, else index 0) and played
via `_play_index`. -/
def action_prev_full (pos : Nat) (s : CliState) : PrevSel × CliState :=
  if s.playlist.isEmpty then (.noop, s)
  else if pos ≠ 0 ∧ 3000 < pos then (.seekZero, s)
  else
    let c := (getCurrentIndex s).getD 0
    let idx := if 0 < c then c - 1
               else if s.repeatMode = .all then s.playlist.length - 1
               else 0
    (.select idx ((s.playlist.getD idx defaultSong).path),
     play_index_state ((s.playlist.getD idx defaultSong).path) s)

/-- The selection logic of `_advance_to_next` (`src/core/cli_playback.py`
lines 490-559), the automatic end-of-track advance (called with
`repeat_mode != "one"`): it resolves the current track in the FULL playlist
(returning without action when there is no current track or it is not
found); with shuffle on the random draw `r`
(`random.randrange(len(full_playlist))`) indexes the full playlist; otherwise
the successor index in the full playlist is chosen, wrapping to 0 under
repeat-all and stopping playback otherwise.  The chosen path is then played
(resolved into the current view or played from the full playlist when
filtered out). -/
def advance_to_next (r : Nat) (s : CliState) : NextSel :=
  match s.currentSongPath with
  | none => .noop
  | some p =>
    match s.fullPlaylist.findIdx? (fun song => song.path == p) with
    | none => .noop
    | some currentIdxFull =>
      if s.shuffle then
        .select r ((s.fullPlaylist.getD r defaultSong).path)
      else
        if s.fullPlaylist.length ≤ currentIdxFull + 1 then
          if s.repeatMode = .all then
            .select 0 ((s.fullPlaylist.getD 0 defaultSong).path)
          else
            .stopped
        else
          .select (currentIdxFull + 1)
            ((s.fullPlaylist.getD (currentIdxFull + 1) defaultSong).path)

/-! ### The end-of-track flag (`song_end_flag`) -/

/-- Setting the end-of-track flag (`threading.Event.set`).  Both signal
paths perform exactly this operation: the VLC end callback
(`src/core/cli_playback.py` lines 222-224, registered in `_play_index`) and
the polling fallback of `src/main.py` (`show_progress`, lines 222-226, which
sets the same `song_ended_flag` when the backend reports not busy). -/
def song_end_flag_set (_flag : Bool) : Bool := true

/-- One flag check of the monitor loop (`_progress_loop`,
`src/core/cli_playback.py` lines 457-459; likewise `src/main.py` line 337
with line 344 / 389 and `src/wavrun_vlc_dark.py` lines 662-663): test and
clear.  Returns the new flag value and the number of advance commands issued
by this iteration (1 when the flag was consumed, else 0). -/
def song_end_consume (flag : Bool) : Bool × Nat :=
  if flag then (false, 1) else (flag, 0)

/-- `n` iterations of the monitor loop's flag check, with no further signal
in between: returns the final flag value and the total number of advance
commands issued. -/
def progress_iterations : Nat → Bool → Bool × Nat
  | 0, flag => (flag, 0)
  | n + 1, flag =>
    ((progress_iterations n (song_end_consume flag).1).1,
     (song_end_consume flag).2
       + (progress_iterations n (song_end_consume flag).1).2)

/-! ## Embedding of `src/wavrun_vlc_dark.py` (end-of-track advance) -/

/-- The end-of-track decision of the Tk GUI's `_progress_loop`
(`src/wavrun_vlc_dark.py` lines 664-686), which tracks the current song by
index: repeat-one replays the current index; shuffle plays the random draw
`r`; otherwise the successor index, wrapping to 0 under repeat-all and
stopping playback (`playing = False`) past the end otherwise. -/
inductive DarkSel where
  | play (idx : Nat)
  | stopped
deriving DecidableEq, Repr

/-- See `DarkSel`. -/
def dark_progress_end (r currentIndex playlistLen : Nat)
    (shuffle : Bool) (repeatMode : RepeatMode) : DarkSel :=
  if repeatMode = .one then .play currentIndex
  else if shuffle then .play r
  else if playlistLen ≤ currentIndex + 1 then
    if repeatMode = .all then .play 0 else .stopped
  else .play (currentIndex + 1)

/-! ## Embedding of `src/core/config.py` -/

/-- A JSON-object config, modelled as an association list (Python dict keys
are unique; `List.lookup` returns the first binding). -/
abbrev ConfigDict (α : Type) := List (String × α)

/-- Python's `dict.update`: existing keys keep their place but take the new
value, keys only in the update are appended. -/
def dictUpdate {α : Type} (cfg newCfg : ConfigDict α) : ConfigDict α :=
  (cfg.map (fun kv =>
    match List.lookup kv.1 newCfg with
    | some v => (kv.1, v)
    | none => kv))
  ++ newCfg.filter (fun kv => (List.lookup kv.1 cfg).isNone)

/-- `save_config` (`src/core/config.py` lines 17-21): the stored config is
loaded, updated in place with the new values (`cfg.update(new_cfg)`) and
written back; the function returns the config that ends up stored. -/
def save_config {α : Type} (stored newCfg : ConfigDict α) : ConfigDict α :=
  dictUpdate stored newCfg

/-! ## Theorems -/

/-! ### C3: the end flag is consumed by a single test-and-clear -/

lemma progress_iterations_false (n : Nat) :
    progress_iterations n false = (false, 0) := by
  induction n with
  | zero => rfl
  | succ k ih => simp [progress_iterations, song_end_consume, ih]

/-- C3: for every track completion at most one advance command results:
even when both the backend-callback path and the polling fallback set the
end flag for the same completion, any positive number of monitor iterations
consumes the flag exactly once and emits exactly one advance command. -/
theorem endFlag_consumed_once (f : Bool) (n : Nat) (h : 1 ≤ n) :
    progress_iterations n (song_end_flag_set (song_end_flag_set f))
      = (false, 1) := by
  obtain ⟨m, rfl⟩ : ∃ m, n = m + 1 := ⟨n - 1, by omega⟩
  simp [progress_iterations, song_end_flag_set, song_end_consume,
    progress_iterations_false]

/-- Witness for C3 at `n = 3` iterations. -/
theorem endFlag_consumed_once_witness :
    (1 : Nat) ≤ 3 ∧
    progress_iterations 3 (song_end_flag_set (song_end_flag_set false))
      = (false, 1) :=
  ⟨by decide, endFlag_consumed_once false 3 (by decide)⟩

/-! ### C5: filtering is a pure view change -/

/-- C5: applying a search filter (`on_input_changed`) or clearing it
(`action_clear_search`) never changes the playing track identity
(`current_song_path`) or the transport status, whatever the predicate and
whether or not the playing track matches it. -/
theorem filtering_preserves_current_track (s : CliState) (value : String) :
    (on_input_changed value s).currentSongPath = s.currentSongPath ∧
    transportStatus (on_input_changed value s) = transportStatus s ∧
    (action_clear_search s).currentSongPath = s.currentSongPath ∧
    transportStatus (action_clear_search s) = transportStatus s := by
  unfold on_input_changed action_clear_search transportStatus
  split <;> simp

/-! ### C10: `save_config` merges -/

lemma lookup_append {α : Type} (l₁ l₂ : List (String × α)) (k : String) :
    List.lookup k (l₁ ++ l₂) =
      match List.lookup k l₁ with
      | some v => some v
      | none => List.lookup k l₂ := by
  induction l₁ with
  | nil => simp [List.lookup]
  | cons hd tl ih =>
    simp only [List.cons_append, List.lookup]
    cases h : (k == hd.1) <;> simp [ih]

lemma lookup_map_update {α : Type} (newCfg : ConfigDict α) :
    ∀ (cfg : ConfigDict α) (k : String),
      List.lookup k (cfg.map (fun kv =>
        match List.lookup kv.1 newCfg with
        | some v => (kv.1, v)
        | none => kv)) =
      match List.lookup k cfg with
      | some _ =>
        match List.lookup k newCfg with
        | some v => some v
        | none => List.lookup k cfg
      | none => none := by
  intro cfg
  induction cfg with
  | nil => intro k; simp [List.lookup]
  | cons hd tl ih =>
    intro k
    cases hk : (k == hd.1) with
    | true =>
      have hk' : k = hd.1 := eq_of_beq hk
      cases hn : List.lookup hd.1 newCfg <;>
        simp [List.lookup, hk', hn]
    | false =>
      cases hn : List.lookup hd.1 newCfg <;>
        simp [List.lookup, hk, hn, ih]

lemma lookup_filter_notin {α : Type} (cfg : ConfigDict α) (k : String)
    (h : List.lookup k cfg = none) :
    ∀ newCfg : ConfigDict α,
      List.lookup k (newCfg.filter
        (fun kv => (List.lookup kv.1 cfg).isNone)) =
      List.lookup k newCfg := by
  intro newCfg
  induction newCfg with
  | nil => rfl
  | cons hd tl ih =>
    cases hk : (k == hd.1) with
    | true =>
      have hk' : k = hd.1 := eq_of_beq hk
      have : List.lookup hd.1 cfg = none := hk' ▸ h
      simp [List.filter, List.lookup, this, hk']
    | false =>
      cases hc : List.lookup hd.1 cfg <;>
        simp [List.filter, List.lookup, hc, hk, ih]

/-- C10: `save_config` merges rather than overwrites: every key of the new
dictionary maps to its new value in the stored result, and every key absent
from the new dictionary keeps its previously stored value. -/
theorem saveConfig_merges {α : Type} (stored newCfg : ConfigDict α)
    (k : String) :
    (∀ v, List.lookup k newCfg = some v →
        List.lookup k (save_config stored newCfg) = some v) ∧
    (List.lookup k newCfg = none →
        List.lookup k (save_config stored newCfg) = List.lookup k stored) := by
  unfold save_config dictUpdate
  rw [lookup_append, lookup_map_update]
  constructor
  · intro v hv
    cases hc : List.lookup k stored
    · simp [hv, lookup_filter_notin stored k hc]
    · simp [hv]
  · intro hv
    cases hc : List.lookup k stored
    · simp [hv, lookup_filter_notin stored k hc]
    · simp [hv]

/-- Witness for C10: storing `{"last_index": "5"}` over
`{"music_dir": "m", "last_index": "3"}` updates `last_index` and keeps
`music_dir`. -/
theorem saveConfig_merges_witness :
    List.lookup "last_index"
        (save_config [("music_dir", "m"), ("last_index", "3")]
          [("last_index", "5")]) = some "5" ∧
    List.lookup "music_dir"
        (save_config [("music_dir", "m"), ("last_index", "3")]
          [("last_index", "5")]) = some "m" :=
  ⟨(saveConfig_merges [("music_dir", "m"), ("last_index", "3")]
      [("last_index", "5")] "last_index").1 "5" (by decide),
   ((saveConfig_merges [("music_dir", "m"), ("last_index", "3")]
      [("last_index", "5")] "music_dir").2 (by decide)).trans (by decide)⟩

/-! ### C1: queue versus repeat-one priority -/

/-- Catalog `[a, b, c]`, unfiltered play order, queue `[2]` (track `c`),
`repeat_mode = "one"`, currently playing track `0`. -/
def c1RepeatOneState : MainState :=
  { songFiles := ["a.mp3", "b.mp3", "c.mp3"], playOrder := [0, 1, 2],
    playIndex := 0, queueList := [2], repeatMode := .one,
    shuffleState := false, currentIndex := 0 }

/-- C1 counterexample: with `repeat_mode == "one"` and the non-empty queue
`[2]`, the end-of-track handler replays the current track (identity `0`) and
leaves the queue untouched — the queue head is neither popped nor played, so
the queue does NOT take priority over repeat-One. -/
theorem queuePreempts_counterexample :
    handleSongEnd c1RepeatOneState = .replaySame c1RepeatOneState ∧
    c1RepeatOneState.queueList = [2] ∧
    c1RepeatOneState.currentIndex = 0 ∧
    c1RepeatOneState.repeatMode = .one :=
  ⟨rfl, rfl, rfl, rfl⟩

/-- C1 (amended): when an end-of-track advance fires with
`repeat_mode ≠ "one"` and a non-empty queue whose head is in the play order,
the head is popped (the queue is one element shorter) and becomes the track
selected next — bypassing shuffle and sequential order, for any play order;
with `repeat_mode == "one"` the current track replays and the queue is
untouched. -/
theorem queueHead_playedNext (s : MainState) (q : Nat) (rest : List Nat)
    (hmode : s.repeatMode ≠ .one) (hq : s.queueList = q :: rest)
    (hmem : q ∈ s.playOrder) :
    handleSongEnd s = .advance
      { s with queueList := rest, currentIndex := q,
               playIndex := s.playOrder.indexOf q } ∧
    rest.length + 1 = s.queueList.length ∧
    selectLoop (fun _ => true) id 1
        { s with queueList := rest, currentIndex := q,
                 playIndex := s.playOrder.indexOf q }
      = some (.play { s with queueList := rest, currentIndex := q,
                             playIndex := s.playOrder.indexOf q }) := by
  have hcon : s.playOrder.contains q = true := by simpa using hmem
  have hlt : s.playOrder.indexOf q < s.playOrder.length :=
    List.indexOf_lt_length.mpr hmem
  have hget : (s.playOrder[s.playOrder.indexOf q]?).getD 0 = q := by
    rw [List.getElem?_eq_getElem hlt]
    simp [List.getElem_indexOf hlt]
  refine ⟨?_, by simp [hq], ?_⟩
  · unfold handleSongEnd
    rw [if_neg hmode, hq]
    simp only [hcon, if_true]
  · unfold selectLoop
    rw [if_neg (by simpa using hlt)]
    simp [hget]

/-- Concrete instance for the C1 witness: catalog `[a, b, c]`, queue `[2]`,
`repeat_mode = "off"`. -/
def c1WitnessState : MainState :=
  { songFiles := ["a.mp3", "b.mp3", "c.mp3"], playOrder := [0, 1, 2],
    playIndex := 0, queueList := [2], repeatMode := .off,
    shuffleState := false, currentIndex := 0 }

/-- The state after the amended C1 pops the queue of `c1WitnessState`. -/
def c1WitnessAfter : MainState :=
  { songFiles := ["a.mp3", "b.mp3", "c.mp3"], playOrder := [0, 1, 2],
    playIndex := List.indexOf 2 [0, 1, 2], queueList := [],
    repeatMode := .off, shuffleState := false, currentIndex := 2 }

/-- Witness for the amended C1: from `c1WitnessState`, the queued track `2`
is popped and selected next, and the queue is empty afterwards. -/
theorem queueHead_playedNext_witness :
    handleSongEnd c1WitnessState = .advance c1WitnessAfter ∧
    List.length ([] : List Nat) + 1 = c1WitnessState.queueList.length ∧
    selectLoop (fun _ => true) id 1 c1WitnessAfter
      = some (.play c1WitnessAfter) := by
  exact queueHead_playedNext c1WitnessState 2 [] (by decide) rfl (by decide)

/-! ### C2: termination of the missing-file skip loop -/

lemma selectLoop_allMissing (resh : List Nat → List Nat) :
    ∀ (fuel : Nat) (s : MainState), s.repeatMode = .all →
      selectLoop (fun _ => false) resh fuel s = none := by
  intro fuel
  induction fuel with
  | zero => intro s _; rfl
  | succ n ih =>
    intro s hall
    unfold selectLoop
    by_cases h : s.playOrder.length ≤ s.playIndex
    · rw [if_pos h, if_pos hall]
      exact ih _ hall
    · rw [if_neg h, if_neg (by simp)]
      exact ih _ hall

/-- A catalog of 5 tracks, none of whose files exist, with
`repeat_mode = "all"`, shuffle off, starting from the head of the play
order. -/
def c2AllMissingState : MainState :=
  { songFiles := ["m1.mp3", "m2.mp3", "m3.mp3", "m4.mp3", "m5.mp3"],
    playOrder := [0, 1, 2, 3, 4], playIndex := 0, queueList := [],
    repeatMode := .all, shuffleState := false, currentIndex := 0 }

/-- C2: the track-selection loop of `play_music` has no skip counter: with
`repeat_mode == "all"` and every file missing it never reaches
`StopPlayback` or an error — for EVERY iteration bound `fuel` (in
particular any bound derived from the catalog length) the loop is still
running, refuting the claimed termination for every repeat mode. -/
theorem missingSkip_repeatAll_diverges :
    ∀ fuel : Nat,
      selectLoop (fun _ => false) id fuel c2AllMissingState = none :=
  fun fuel => selectLoop_allMissing id fuel c2AllMissingState rfl

/-! ### C6: sequential auto-advance from the last position -/

/-- C6: with shuffle off (and the TUI has no queue at all), automatic
end-of-track advance from the last catalog position selects position 0 under
repeat-All, and stops playback under repeat-Off — in the TUI
(`_advance_to_next`) and in the Tk GUI (`dark_progress_end`) alike.  `n + 1`
is the catalog length, so index `n` is the last position. -/
theorem sequentialAdvance_wrap_or_stop (s : CliState) (p : String) (n r : Nat)
    (hlen : s.fullPlaylist.length = n + 1)
    (hcur : s.currentSongPath = some p)
    (hfind : s.fullPlaylist.findIdx? (fun song => song.path == p) = some n)
    (hsh : s.shuffle = false) :
    advance_to_next r { s with repeatMode := .all }
      = .select 0 ((s.fullPlaylist.getD 0 defaultSong).path) ∧
    advance_to_next r { s with repeatMode := .off } = .stopped ∧
    dark_progress_end r n (n + 1) false .all = .play 0 ∧
    dark_progress_end r n (n + 1) false .off = .stopped := by
  obtain ⟨full, pl, cur, playing, paused, sh, rm, flag, sv⟩ := s
  simp only at hlen hcur hfind hsh
  subst hcur hsh
  refine ⟨?_, ?_, ?_, ?_⟩
  · unfold advance_to_next
    simp [hfind, hlen]
  · unfold advance_to_next
    simp [hfind, hlen]
  · simp [dark_progress_end]
  · simp [dark_progress_end]

/-- Concrete catalog `[a, b, c]` with the last track `c` playing, shuffle
off. -/
def c6State : CliState :=
  { fullPlaylist := [⟨"a.mp3", "a", "x"⟩, ⟨"b.mp3", "b", "x"⟩,
      ⟨"c.mp3", "c", "x"⟩],
    playlist := [⟨"a.mp3", "a", "x"⟩, ⟨"b.mp3", "b", "x"⟩,
      ⟨"c.mp3", "c", "x"⟩],
    currentSongPath := some "c.mp3", playing := true, paused := false,
    shuffle := false, repeatMode := .off, songEndFlag := false,
    searchValue := "" }

/-- Witness for C6: from the last track of `c6State`, repeat-All wraps to
track `a.mp3` and repeat-Off stops. -/
theorem sequentialAdvance_wrap_or_stop_witness :
    advance_to_next 0 { c6State with repeatMode := .all }
      = .select 0 ((c6State.fullPlaylist.getD 0 defaultSong).path) ∧
    advance_to_next 0 { c6State with repeatMode := .off } = .stopped ∧
    dark_progress_end 0 2 (2 + 1) false .all = .play 0 ∧
    dark_progress_end 0 2 (2 + 1) false .off = .stopped := by
  exact sequentialAdvance_wrap_or_stop c6State "c.mp3" 2 0 (by decide) rfl
    (by decide) rfl

/-! ### C9: Previous restarts the track when more than 3000 ms in -/

/-- C9: for a non-empty view, `action_prev` with the playback position
strictly beyond 3000 ms only seeks the current track back to 0 and leaves
the whole state — in particular the current track identity — unchanged; at
3000 ms or less, with the current track at view index `c > 0`, it selects
the preceding entry `c - 1`. -/
theorem prev_seekOrSelect (s : CliState) (posHigh posLow c : Nat)
    (hne : s.playlist ≠ []) (hhigh : 3000 < posHigh)
    (hlow : posLow ≤ 3000) (hcur : getCurrentIndex s = some c)
    (hc : 0 < c) :
    action_prev_full posHigh s = (.seekZero, s) ∧
    (action_prev_full posLow s).1
      = .select (c - 1) ((s.playlist.getD (c - 1) defaultSong).path) := by
  have hempty : s.playlist.isEmpty = false := by
    cases h : s.playlist
    · exact absurd h hne
    · rfl
  constructor
  · unfold action_prev_full
    rw [hempty]
    simp only [Bool.false_eq_true, if_false]
    rw [if_pos ⟨by omega, hhigh⟩]
  · unfold action_prev_full
    rw [hempty]
    simp only [Bool.false_eq_true, if_false]
    rw [if_neg (by omega)]
    simp [hcur, hc]

/-- Concrete state for the C9 witness: view `[a, b, c]`, track `b.mp3`
(view index 1) playing. -/
def c9State : CliState :=
  { fullPlaylist := [⟨"a.mp3", "a", "x"⟩, ⟨"b.mp3", "b", "x"⟩,
      ⟨"c.mp3", "c", "x"⟩],
    playlist := [⟨"a.mp3", "a", "x"⟩, ⟨"b.mp3", "b", "x"⟩,
      ⟨"c.mp3", "c", "x"⟩],
    currentSongPath := some "b.mp3", playing := true, paused := false,
    shuffle := false, repeatMode := .off, songEndFlag := false,
    searchValue := "" }

/-- Witness for C9 at positions 5000 ms and 1000 ms. -/
theorem prev_seekOrSelect_witness :
    action_prev_full 5000 c9State = (.seekZero, c9State) ∧
    (action_prev_full 1000 c9State).1
      = .select (1 - 1) ((c9State.playlist.getD (1 - 1) defaultSong).path) := by
  exact prev_seekOrSelect c9State 5000 1000 1 (by decide) (by decide)
    (by decide) (by decide) (by decide)

/-! ### C7: manual Next under a filter -/

/-- Full catalog `[a, b, c]`, filter showing only `[b, c]`, the excluded
track `a.mp3` playing, shuffle ON. -/
def c7FilterState : CliState :=
  { fullPlaylist := [⟨"a.mp3", "a", "x"⟩, ⟨"b.mp3", "b", "x"⟩,
      ⟨"c.mp3", "c", "x"⟩],
    playlist := [⟨"b.mp3", "b", "x"⟩, ⟨"c.mp3", "c", "x"⟩],
    currentSongPath := some "a.mp3", playing := true, paused := false,
    shuffle := true, repeatMode := .off, songEndFlag := false,
    searchValue := "b" }

/-- C7 counterexample: with shuffle on, the current identity absent from the
filtered view and the legitimate random draw 1 (`random.randrange(2)`),
`action_next` selects view entry 1 (`c.mp3`), not the first entry of the
filtered view (`b.mp3`) — so "Next selects the first entry of the filtered
view" fails as stated. -/
theorem manualNext_firstEntry_counterexample :
    getCurrentIndex c7FilterState = none ∧
    action_next 1 c7FilterState = .select 1 "c.mp3" ∧
    (c7FilterState.playlist.getD 0 defaultSong).path = "b.mp3" ∧
    ("c.mp3" : String) ≠ "b.mp3" :=
  ⟨rfl, rfl, rfl, by decide⟩

/-- `selWithin sel view`: if `sel` selects a track, the selected path is the
path of an entry of `view`. -/
def selWithin (sel : NextSel) (view : List Song) : Prop :=
  ∀ idx p, sel = .select idx p → ∃ song, song ∈ view ∧ song.path = p

/-- C7 (amended): manual Next with a filter active navigates within the
filtered view only — whenever it selects a track, the track is an entry of
the filtered view, for any shuffle/repeat mode and any in-range random draw
— and when the current identity is absent from the view and shuffle is off,
it selects the FIRST entry of the view (with shuffle on it selects the view
entry at the random draw, as the counterexample shows). -/
theorem manualNext_withinView (s t : CliState) (r : Nat)
    (hr : r < s.playlist.length)
    (ht : getCurrentIndex t = none) (htn : t.playlist ≠ [])
    (hts : t.shuffle = false) :
    selWithin (action_next r s) s.playlist ∧
    action_next r t = .select 0 ((t.playlist.getD 0 defaultSong).path) := by
  have memD : ∀ (l : List Song) (i : Nat), i < l.length →
      ∃ song, song ∈ l ∧ song.path = (l.getD i defaultSong).path := by
    intro l i hi
    refine ⟨l.getD i defaultSong, ?_, rfl⟩
    rw [List.getD_eq_getElem _ _ hi]
    exact List.getElem_mem hi
  have hlen : 0 < s.playlist.length := Nat.lt_of_le_of_lt (Nat.zero_le r) hr
  have hemp : s.playlist.isEmpty = false := by
    cases h : s.playlist
    · rw [h] at hlen; simp at hlen
    · rfl
  have htemp : t.playlist.isEmpty = false := by
    cases h : t.playlist
    · exact absurd h htn
    · rfl
  have htlen : 0 < t.playlist.length := by
    cases h : t.playlist
    · exact absurd h htn
    · simp [h]
  constructor
  · intro idx p hsel
    unfold action_next at hsel
    rw [hemp] at hsel
    simp only [Bool.false_eq_true, if_false] at hsel
    cases hs : s.shuffle
    · rw [hs] at hsel
      simp only [Bool.false_eq_true, if_false] at hsel
      cases hc : getCurrentIndex s
      · rw [hc] at hsel
        cases hsel
        exact memD _ _ hlen
      · rw [hc] at hsel
        simp only at hsel
        by_cases hend : s.playlist.length ≤ ‹Nat› + 1
        all_goals rename_i c
        · rw [if_pos hend] at hsel
          by_cases hall : s.repeatMode = .all
          · rw [if_pos hall] at hsel
            cases hsel
            exact memD _ _ hlen
          · rw [if_neg hall] at hsel
            cases hsel
        · rw [if_neg hend] at hsel
          cases hsel
          exact memD _ _ (by omega)
    · rw [hs] at hsel
      simp only [if_true] at hsel
      cases hsel
      exact memD _ _ hr
  · unfold action_next
    rw [htemp]
    simp only [Bool.false_eq_true, if_false]
    rw [hts]
    simp only [Bool.false_eq_true, if_false, ht]

/-- State for the C7 witness: same filtered view, shuffle OFF, current
track excluded by the filter. -/
def c7WitnessState : CliState :=
  { fullPlaylist := [⟨"a.mp3", "a", "x"⟩, ⟨"b.mp3", "b", "x"⟩,
      ⟨"c.mp3", "c", "x"⟩],
    playlist := [⟨"b.mp3", "b", "x"⟩, ⟨"c.mp3", "c", "x"⟩],
    currentSongPath := some "a.mp3", playing := true, paused := false,
    shuffle := false, repeatMode := .off, songEndFlag := false,
    searchValue := "b" }

/-- Witness for the amended C7: any selection from `c7FilterState` stays in
the view, and from `c7WitnessState` (shuffle off, current excluded) Next
selects the first view entry. -/
theorem manualNext_withinView_witness :
    selWithin (action_next 1 c7FilterState) c7FilterState.playlist ∧
    action_next 1 c7WitnessState
      = .select 0 ((c7WitnessState.playlist.getD 0 defaultSong).path) := by
  exact manualNext_withinView c7FilterState c7WitnessState 1 (by decide)
    (by decide) (by decide) rfl

/-! ### C4: the shuffle universe of automatic advance -/

/-- `play_music` state with the only play order `rebuild_play_order` can
produce for catalog `[alpha, beta]` under filter `"alpha"` with shuffle on:
`[0]`. -/
def c4MainState : MainState :=
  { songFiles := ["alpha.mp3", "beta.mp3"], playOrder := [0],
    playIndex := 0, queueList := [], repeatMode := .all,
    shuffleState := true, currentIndex := 0 }

/-- C4 counterexample, in the `main.py` variant: with catalog
`[alpha.mp3, beta.mp3]`, active filter `"alpha"` and shuffle enabled, the
only play order `rebuild_play_order` can produce is `[0]` (every
`random.shuffle` permutation of the single-element filtered index list), and
the end-of-track advance then selects track 0 (`alpha.mp3`) again: the
filter-excluded entry `beta.mp3` (index 1) is never a possible selection,
contradicting "never from the filtered view / every catalog entry is a
possible selection". -/
theorem shuffleUniverse_counterexample :
    rebuild_play_order_choices ["alpha.mp3", "beta.mp3"] "alpha" true
      = [[0]] ∧
    handleSongEnd c4MainState = .advance { c4MainState with playIndex := 1 } ∧
    selectLoop (fun _ => true) id 2 { c4MainState with playIndex := 1 }
      = some (.play { c4MainState with playIndex := 0 }) := by
  refine ⟨by decide, rfl, rfl⟩

/-- C4 (amended): in the TUI controller (`_advance_to_next`), automatic
end-of-track advance with shuffle enabled selects the full-catalog entry at
the uniform random draw, regardless of the active filter: for every in-range
draw `i` the selected track is catalog entry `i`, so every catalog entry —
including those the filter excludes from the view — is an equally likely
selection.  (In the `main.py` variant, by contrast, a shuffled auto-advance
under an active filter draws only from the filtered subset, as the
counterexample shows.) -/
theorem shuffleAdvance_fullCatalog (s : CliState) (p : String) (j : Nat)
    (hcur : s.currentSongPath = some p)
    (hfind : s.fullPlaylist.findIdx? (fun song => song.path == p) = some j)
    (hsh : s.shuffle = true) :
    ∀ i, i < s.fullPlaylist.length →
      advance_to_next i s
        = .select i ((s.fullPlaylist.getD i defaultSong).path) := by
  intro i _
  unfold advance_to_next
  rw [hcur]
  simp [hfind, hsh]

/-- State for the C4 witness: catalog of three tracks, view filtered down
to one, the filtered-out track `a.mp3` playing, shuffle on. -/
def c4CliState : CliState :=
  { fullPlaylist := [⟨"a.mp3", "a", "x"⟩, ⟨"b.mp3", "b", "x"⟩,
      ⟨"c.mp3", "c", "x"⟩],
    playlist := [⟨"b.mp3", "b", "x"⟩],
    currentSongPath := some "a.mp3", playing := true, paused := false,
    shuffle := true, repeatMode := .off, songEndFlag := false,
    searchValue := "b" }

/-- Witness for the amended C4: draw 2 selects catalog entry `c.mp3`, which
the filter excludes from the view. -/
theorem shuffleAdvance_fullCatalog_witness :
    advance_to_next 2 c4CliState
      = .select 2 ((c4CliState.fullPlaylist.getD 2 defaultSong).path) := by
  exact shuffleAdvance_fullCatalog c4CliState "a.mp3" 0 rfl (by decide) rfl
    2 (by decide)

/-! ### C8: `stop()` and the pending end-of-track signal -/

/-- The backend wrapper state of `VLCMusic`
(`src/vlc_player.py` / `src/core/player.py`): the loaded media, if any, and
whether the player is playing. -/
structure PlayerState where
  loadedMedia : Option String
  isPlaying : Bool
deriving DecidableEq, Repr

/-- `VLCMusic.stop` (`src/vlc_player.py` lines 34-35, `src/core/player.py`
lines 47-52): calls `self.player.stop()` — a total operation with no
precondition (the `core` variant additionally swallows exceptions), stopping
playback and touching nothing else.  In particular it does not interact
with any end-of-track flag, which lives in the application, not here. -/
def VLCMusic_stop (ps : PlayerState) : PlayerState :=
  { ps with isPlaying := false }

/-- TUI state with the end flag still pending from the previous track. -/
def c8State : CliState :=
  { fullPlaylist := [⟨"a.mp3", "a", "x"⟩, ⟨"b.mp3", "b", "x"⟩],
    playlist := [⟨"a.mp3", "a", "x"⟩, ⟨"b.mp3", "b", "x"⟩],
    currentSongPath := some "a.mp3", playing := true, paused := false,
    shuffle := false, repeatMode := .off, songEndFlag := true,
    searchValue := "" }

/-- C8 counterexample: the TUI load sequence (`_play_index`: stop → load →
register callback → play) never clears `song_end_flag`; starting with the
flag pending from the previous track, the flag is still set after the fresh
load-and-play of `b.mp3`, and the very next monitor iteration consumes it
and issues an advance — the new track observes a leftover end event,
contradicting "a loadAndPlay issued immediately after stop() cannot observe
a leftover end event". -/
theorem stopClearsEndFlag_counterexample :
    (play_index_state "b.mp3" c8State).songEndFlag = true ∧
    song_end_consume (play_index_state "b.mp3" c8State).songEndFlag
      = (false, 1) :=
  ⟨rfl, rfl⟩

/-- C8 (amended): `stop()` always succeeds — it is total, safe to call in
any player state including when nothing is loaded, halts playback and
leaves the loaded media unchanged — but it does NOT clear a pending
end-of-track signal: the whole TUI play sequence `_play_index` (which begins
with `player.stop()`) preserves `song_end_flag`, so a load issued
immediately after `stop()` can observe a leftover end event from the prior
track. -/
theorem stop_safe_but_flag_preserved (ps : PlayerState) (s : CliState)
    (path : String) :
    (VLCMusic_stop ps).isPlaying = false ∧
    (VLCMusic_stop ps).loadedMedia = ps.loadedMedia ∧
    (play_index_state path s).songEndFlag = s.songEndFlag :=
  ⟨rfl, rfl, rfl⟩

end Wavrun
